import Mathlib

/-!
Verification of the schema-bootstrap script
`src/sample/asset_api/tools/create_db.py`.

The script is a straight-line Python module:

  conn = sqlite3.connect("assets.db")
  cursor = conn.cursor()
  cursor.execute("CREATE TABLE IF NOT EXISTS asset ( ... )")
  conn.commit()
  conn.close()

We embed it shallowly: an SQLite database file is modelled as an
association list from table names to tables (a schema together with a
list of rows); the filesystem slot for the one path the script touches is
an `Option Database` (`none` = no file).  Each fallible engine step
(open, execute, commit) may be made to fail through an explicit
`FailSpec` oracle, which models the storage engine raising an exception;
on a raise the remaining Python statements, including `conn.close()`, do
not run, exactly as in the source.  The invocation environment (argv,
environment variables, clock, random seed) is passed in as a `World`
value that the source never reads.
-/

/-- One column of a table schema: its name, declared type, and whether it
carries a NOT NULL constraint or is the primary key. -/
structure Column where
  cname : String
  ctype : String
  notNull : Bool
  primaryKey : Bool
deriving DecidableEq, Repr

/-- An SQLite value stored in a row.  REAL values are modelled as
rationals; the bootstrap never computes with row values, it only carries
them. -/
inductive Value where
  | nullV
  | intV (i : Int)
  | realV (q : Rat)
  | textV (s : String)
deriving DecidableEq, Repr

/-- A stored row: one value per column. -/
abbrev Row := List Value

/-- A table: its schema and its rows. -/
structure Table where
  schema : List Column
  rows : List Row
deriving DecidableEq, Repr

/-- A database: an association list from table names to tables, in
creation order.  SQLite keeps table names unique, so a well-formed
database has pairwise distinct keys. -/
abbrev Database := List (String × Table)

/-- Look up the table of the given name, as SQLite resolves a name. -/
def lookupTable (db : Database) (n : String) : Option Table :=
  (db.find? (fun p => p.1 == n)).map (fun p => p.2)

/-- Number of tables carrying the given name. -/
def tablesNamed (db : Database) (n : String) : Nat :=
  (db.filter (fun p => p.1 == n)).length

/-- Semantics of `CREATE TABLE IF NOT EXISTS n (s)`: if a table named `n`
already exists the statement is a no-op, whatever schema that table has;
otherwise a fresh empty table with schema `s` is appended. -/
def createTableIfNotExists (db : Database) (n : String) (s : List Column) : Database :=
  match lookupTable db n with
  | some _ => db
  | none => db ++ [(n, Table.mk s [])]

/-- The column list of the `asset` table exactly as declared in the DDL
string of `create_db.py` lines 11-18: `id INTEGER PRIMARY KEY`,
`name TEXT NOT NULL`, `code TEXT NOT NULL`, `price REAL NOT NULL`,
`website TEXT`, `description TEXT`. -/
def assetSchema : List Column :=
  [⟨"id", "INTEGER", false, true⟩,
   ⟨"name", "TEXT", true, false⟩,
   ⟨"code", "TEXT", true, false⟩,
   ⟨"price", "REAL", true, false⟩,
   ⟨"website", "TEXT", false, false⟩,
   ⟨"description", "TEXT", false, false⟩]

/-- The SQL statements a script can issue against the engine.  Besides
the create-if-not-exists form used by `create_db.py` we list the forms a
check-then-create bootstrap would use, so that their absence is
expressible. -/
inductive SqlStmt where
  | createTableIfNotExistsStmt (name : String) (schema : List Column)
  | createTableStmt (name : String) (schema : List Column)
  | schemaExistenceCheck (name : String)
  | dropTableStmt (name : String)
deriving DecidableEq, Repr

/-- Whether a statement is a single guarded (idempotent) creation. -/
def SqlStmt.isCreateIfNotExists : SqlStmt → Bool
  | .createTableIfNotExistsStmt _ _ => true
  | _ => false

/-- Whether a statement reads the schema (an existence check). -/
def SqlStmt.isSchemaRead : SqlStmt → Bool
  | .schemaExistenceCheck _ => true
  | _ => false

/-- Effect of one statement on the database state. -/
def applyStmt (db : Database) : SqlStmt → Database
  | .createTableIfNotExistsStmt n s => createTableIfNotExists db n s
  | .createTableStmt n s => db ++ [(n, Table.mk s [])]
  | .schemaExistenceCheck _ => db
  | .dropTableStmt n => db.filter (fun p => !(p.1 == n))

/-- The complete list of SQL statements `create_db.py` issues: the single
`cursor.execute` call on lines 10-19. -/
def scriptStatements : List SqlStmt :=
  [SqlStmt.createTableIfNotExistsStmt "asset" assetSchema]

/-- The invocation environment of the script: command-line arguments,
environment variables, clock and randomness.  The source reads none of
these. -/
structure World where
  argv : List String
  envVars : List (String × String)
  clock : Nat
  randomSeed : Nat
deriving DecidableEq, Repr

/-- The path `sqlite3.connect` is called with.  Line 4 of the source
hardcodes the literal `"assets.db"`; no part of the world (in particular
no command-line argument) is consulted. -/
def scriptConnectPath (_w : World) : String := "assets.db"

/-- The errors the storage engine can raise, one per fallible step. -/
inductive StorageError where
  | openFailed
  | schemaDeclarationFailed
  | commitFailed
deriving DecidableEq, Repr

/-- Outcome of a run: clean completion or a propagated engine error. -/
inductive Outcome where
  | ok
  | err (e : StorageError)
deriving DecidableEq, Repr

/-- Failure oracle: which engine steps raise during this run. -/
structure FailSpec where
  openFails : Bool
  execFails : Bool
  commitFails : Bool
deriving DecidableEq, Repr

/-- The run with no engine failure injected. -/
def noFail : FailSpec := ⟨false, false, false⟩

/-- Externally observable side effects of a run. -/
inductive Effect where
  | fileTouch (path : String)
  | networkIO
  | logOutput (s : String)
  | interactivePrompt
deriving DecidableEq, Repr

/-- Everything observable about one run of the script. -/
structure RunResult where
  outcome : Outcome
  fileState : Option Database
  handleOpen : Bool
  effects : List Effect
deriving DecidableEq, Repr

/-- Shallow embedding of the whole module `create_db.py`, one Python
statement at a time.

* `sqlite3.connect("assets.db")` (line 4): may raise `openFailed`; on
  success the database file is created empty if absent and a handle is
  now open.
* `conn.cursor()` (line 7): pure, cannot fail.
* `cursor.execute(CREATE TABLE IF NOT EXISTS asset ...)` (lines 10-19):
  may raise `schemaDeclarationFailed`; on success applies the guarded
  creation to the connection's view of the database.
* `conn.commit()` (line 22): may raise `commitFailed`; on success
  persists the view to the file.
* `conn.close()` (line 23): releases the handle.

The module has no try/except/finally, so when a statement raises, the
statements after it — `conn.close()` included — do not run, and the
exception propagates out of the module. -/
def createDb (w : World) (f : FailSpec) (fs : Option Database) : RunResult :=
  if f.openFails then
    { outcome := .err .openFailed, fileState := fs, handleOpen := false,
      effects := [.fileTouch (scriptConnectPath w)] }
  else
    let dbOnDisk : Database := fs.getD []
    if f.execFails then
      { outcome := .err .schemaDeclarationFailed, fileState := some dbOnDisk,
        handleOpen := true, effects := [.fileTouch (scriptConnectPath w)] }
    else
      let dbAfter := createTableIfNotExists dbOnDisk "asset" assetSchema
      if f.commitFails then
        { outcome := .err .commitFailed, fileState := some dbOnDisk,
          handleOpen := true, effects := [.fileTouch (scriptConnectPath w)] }
      else
        { outcome := .ok, fileState := some dbAfter, handleOpen := false,
          effects := [.fileTouch (scriptConnectPath w)] }

/-- A fixed sample invocation environment, used to instantiate theorems
at concrete inputs. -/
def w0 : World := ⟨[], [], 0, 0⟩

/- ## Helper lemmas about the guarded creation -/

theorem createTableIfNotExists_of_found {db : Database} {n : String} {t : Table}
    (h : lookupTable db n = some t) (s : List Column) :
    createTableIfNotExists db n s = db := by
  unfold createTableIfNotExists
  rw [h]

theorem lookupTable_append_single_self (db : Database) (n : String) (t : Table)
    (h : lookupTable db n = none) :
    lookupTable (db ++ [(n, t)]) n = some t := by
  unfold lookupTable at h ⊢
  rw [List.find?_append]
  have hf : db.find? (fun p => p.1 == n) = none := by
    rcases hg : db.find? (fun p => p.1 == n) with _ | p
    · exact hg
    · rw [hg] at h
      simp at h
  rw [hf]
  simp

theorem lookupTable_createTableIfNotExists_self (db : Database) (n : String)
    (s : List Column) :
    ∃ t, lookupTable (createTableIfNotExists db n s) n = some t := by
  unfold createTableIfNotExists
  rcases h : lookupTable db n with _ | t
  · exact ⟨Table.mk s [], lookupTable_append_single_self db n _ h⟩
  · exact ⟨t, h⟩

theorem tablesNamed_createTableIfNotExists (db : Database) (n : String)
    (s : List Column) (h : tablesNamed db n ≤ 1) :
    tablesNamed (createTableIfNotExists db n s) n = 1 := by
  rcases hf : lookupTable db n with _ | t
  · unfold createTableIfNotExists
    rw [hf]
    unfold tablesNamed
    rw [List.filter_append]
    have hg : db.find? (fun p => p.1 == n) = none := by
      unfold lookupTable at hf
      rcases he : db.find? (fun p => p.1 == n) with _ | p
      · exact he
      · rw [he] at hf
        simp at hf
    have hnil : db.filter (fun p => p.1 == n) = [] := by
      rw [List.filter_eq_nil_iff]
      intro x hx hpx
      exact (List.find?_eq_none.mp hg x hx) hpx
    rw [hnil]
    simp
  · rw [createTableIfNotExists_of_found hf s]
    unfold lookupTable at hf
    rcases he : db.find? (fun p => p.1 == n) with _ | p
    · rw [he] at hf
      simp at hf
    · have hp : (p.1 == n) = true := List.find?_some (p := fun q : String × Table => q.1 == n) he
      have hmem : p ∈ db := List.mem_of_find?_eq_some he
      have hmemf : p ∈ db.filter (fun p => p.1 == n) := List.mem_filter.mpr ⟨hmem, hp⟩
      have hpos : 0 < (db.filter (fun p => p.1 == n)).length :=
        List.length_pos.mpr (List.ne_nil_of_mem hmemf)
      unfold tablesNamed at h ⊢
      omega

theorem lookupTable_createTableIfNotExists_other (db : Database) (n m : String)
    (s : List Column) (h : m ≠ n) :
    lookupTable (createTableIfNotExists db n s) m = lookupTable db m := by
  unfold createTableIfNotExists
  rcases hf : lookupTable db n with _ | t
  · unfold lookupTable
    rw [List.find?_append]
    have hone : [(n, Table.mk s [])].find? (fun p => p.1 == m) = none := by
      rw [List.find?_singleton]
      have : ((n, Table.mk s []).1 == m) = false := by
        simp
        exact fun hnm => h hnm.symm
      rw [this]
      simp
    rw [hone]
    rcases hg : db.find? (fun p => p.1 == m) with _ | p <;> simp
  · rfl

/- ## Claim theorems -/

/-- C10: the bootstrap is deterministic: it reads no command-line input,
environment variable, clock or randomness, so two runs started from the
same initial database state (under the same storage-failure behaviour)
produce identical final states, outcomes and effects, whatever the
invocation environment. -/
theorem createDb_deterministic (w₁ w₂ : World) (f : FailSpec) (fs : Option Database) :
    createDb w₁ f fs = createDb w₂ f fs := rfl

/-- C5: every failure of opening, declaring, or committing propagates to
the caller as the corresponding storage error — the first step to fail
determines the outcome, nothing is retried or recovered internally — and
the run succeeds exactly when no step fails. -/
theorem createDb_failures_propagate (w : World) (f : FailSpec) (fs : Option Database) :
    (createDb w f fs).outcome =
      (if f.openFails then Outcome.err StorageError.openFailed
       else if f.execFails then Outcome.err StorageError.schemaDeclarationFailed
       else if f.commitFails then Outcome.err StorageError.commitFailed
       else Outcome.ok) := by
  rcases f with ⟨o, e, c⟩
  rcases o <;> rcases e <;> rcases c <;> simp [createDb]

/-- C3 counterexample: with a commit failure injected, the script exits
by exception before line 23 ever runs, so the connection handle is still
open when control leaves the module — the claim that every exit path
releases the handle is false. -/
theorem createDb_handle_leak_on_commit_failure :
    (createDb w0 ⟨false, false, true⟩ none).outcome = Outcome.err StorageError.commitFailed ∧
    (createDb w0 ⟨false, false, true⟩ none).handleOpen = true := by decide

/-- C3 (amended): the handle is released on the success path, and is
never acquired when the open itself fails; but when the schema
declaration or the commit fails after a successful open, the straight-line
script skips conn.close() and the handle remains open at exit. -/
theorem createDb_handle_release (w : World) (f : FailSpec) (fs : Option Database) :
    (createDb w f fs).handleOpen = (!f.openFails && (f.execFails || f.commitFails)) := by
  rcases f with ⟨o, e, c⟩
  rcases o <;> rcases e <;> rcases c <;> simp [createDb]

/-- C6 counterexample: invoked with a supplied path argument
"other.db", the script still connects to the hardcoded literal
"assets.db": no supplied path is ever consulted, so there is no path
argument for which the bootstrap operates on that path instead of the
default. -/
theorem connectPath_ignores_argument :
    scriptConnectPath ⟨["other.db"], [], 0, 0⟩ = "assets.db" ∧
    scriptConnectPath ⟨["other.db"], [], 0, 0⟩ ≠ "other.db" := by decide

/-- C6 (amended): the script is a single entry point taking no arguments
at all: in every invocation environment it connects to, and touches, the
fixed path "assets.db"; any supplied argument is ignored. -/
theorem connectPath_fixed (w : World) (f : FailSpec) (fs : Option Database) :
    scriptConnectPath w = "assets.db" ∧
    (createDb w f fs).effects = [Effect.fileTouch "assets.db"] := by
  refine ⟨rfl, ?_⟩
  rcases f with ⟨o, e, c⟩
  rcases o <;> rcases e <;> rcases c <;> simp [createDb, scriptConnectPath]

/-- C4: the schema is established by the single atomic idempotent
statement CREATE TABLE IF NOT EXISTS — the script's statement list is
exactly that one guarded creation, contains no schema-reading existence
check and no other schema write, and replaying the list is a no-op. -/
theorem scriptStatements_single_idempotent :
    scriptStatements = [SqlStmt.createTableIfNotExistsStmt "asset" assetSchema] ∧
    scriptStatements.length = 1 ∧
    scriptStatements.all SqlStmt.isCreateIfNotExists = true ∧
    scriptStatements.all (fun s => ! s.isSchemaRead) = true ∧
    ∀ db : Database,
      scriptStatements.foldl applyStmt (scriptStatements.foldl applyStmt db) =
        scriptStatements.foldl applyStmt db := by
  refine ⟨rfl, rfl, rfl, rfl, fun db => ?_⟩
  obtain ⟨t, ht⟩ := lookupTable_createTableIfNotExists_self db "asset" assetSchema
  simp [scriptStatements, applyStmt]
  exact createTableIfNotExists_of_found ht assetSchema

/-- C8: running the bootstrap when no database file exists creates the
file containing exactly one table, asset, with the six declared columns
and zero rows, and the run reports success. -/
theorem createDb_fresh_bootstrap (w : World) :
    (createDb w noFail none).outcome = Outcome.ok ∧
    (createDb w noFail none).fileState = some [("asset", Table.mk assetSchema [])] ∧
    ((createDb w noFail none).fileState.getD []).length = 1 ∧
    assetSchema.length = 6 ∧
    (∀ t, lookupTable (((createDb w noFail none).fileState).getD []) "asset" = some t →
      t.rows = [] ∧ t.schema = assetSchema) := by
  have h1 : createDb w noFail none = createDb w0 noFail none :=
    createDb_deterministic w w0 noFail none
  rw [h1]
  refine ⟨by decide, by decide, by decide, by decide, ?_⟩
  intro t ht
  have : some t = some (Table.mk assetSchema []) := by
    rw [← ht]; decide
  cases this
  exact ⟨rfl, rfl⟩

/-- The column names of the asset table of a database file, as a schema
query against the file's contents would return them. -/
def assetColumnNames (fs : Option Database) : Option (List String) :=
  (lookupTable (fs.getD []) "asset").map (fun t => t.schema.map Column.cname)

/-- A database whose asset table pre-exists with an incompatible
single-column layout. -/
def incompatibleDb : Database :=
  [("asset", Table.mk [⟨"x", "TEXT", false, false⟩] [])]

/-- C2 counterexample: started from a database whose asset table
pre-exists with the single column x, the run succeeds (the guarded
creation is a no-op) yet the resulting column set is x, not the six
declared columns — so the claim does not hold for every successful
run. -/
theorem assetColumnNames_not_always_declared :
    (createDb w0 noFail (some incompatibleDb)).outcome = Outcome.ok ∧
    assetColumnNames (createDb w0 noFail (some incompatibleDb)).fileState = some ["x"] ∧
    some ["x"] ≠ some ["id", "name", "code", "price", "website", "description"] := by
  decide

/-- C2 (amended): after a successful run started from any state with no
pre-existing asset table (in particular from a fresh file), the asset
table's columns are exactly id, name, code, price, website, description;
id is the INTEGER primary key; name, code and price carry NOT NULL;
website and description do not. -/
theorem assetColumnNames_after_bootstrap (w : World) (fs₀ : Option Database)
    (h : lookupTable (fs₀.getD []) "asset" = none) :
    (createDb w noFail fs₀).outcome = Outcome.ok ∧
    assetColumnNames (createDb w noFail fs₀).fileState =
      some ["id", "name", "code", "price", "website", "description"] ∧
    (assetSchema.filter (fun c => c.primaryKey)).map (fun c => (c.cname, c.ctype)) =
      [("id", "INTEGER")] ∧
    (assetSchema.filter (fun c => c.notNull)).map Column.cname = ["name", "code", "price"] ∧
    (assetSchema.filter (fun c => !c.notNull)).map Column.cname =
      ["id", "website", "description"] := by
  have hlook : lookupTable (createTableIfNotExists (fs₀.getD []) "asset" assetSchema) "asset"
      = some (Table.mk assetSchema []) := by
    unfold createTableIfNotExists
    rw [h]
    exact lookupTable_append_single_self _ _ _ h
  refine ⟨by simp [createDb, noFail], ?_, by decide, by decide, by decide⟩
  simp [createDb, noFail, assetColumnNames, hlook]
  decide

/-- C2 amended witness: the amended schema-fidelity theorem instantiated
at a fresh file (no database present). -/
theorem assetColumnNames_after_bootstrap_witness :
    lookupTable ((none : Option Database).getD []) "asset" = none ∧
    ((createDb w0 noFail none).outcome = Outcome.ok ∧
     assetColumnNames (createDb w0 noFail none).fileState =
       some ["id", "name", "code", "price", "website", "description"] ∧
     (assetSchema.filter (fun c => c.primaryKey)).map (fun c => (c.cname, c.ctype)) =
       [("id", "INTEGER")] ∧
     (assetSchema.filter (fun c => c.notNull)).map Column.cname = ["name", "code", "price"] ∧
     (assetSchema.filter (fun c => !c.notNull)).map Column.cname =
       ["id", "website", "description"]) :=
  ⟨by decide, assetColumnNames_after_bootstrap w0 none (by decide)⟩

/-- C7: when a table named asset already exists — whatever its layout,
compatible or not — the bootstrap succeeds and leaves the whole database,
that pre-existing schema and all rows included, exactly as it was. -/
theorem preexisting_asset_preserved (w : World) (db : Database) (t : Table)
    (h : lookupTable db "asset" = some t) :
    (createDb w noFail (some db)).outcome = Outcome.ok ∧
    (createDb w noFail (some db)).fileState = some db := by
  have hfix := createTableIfNotExists_of_found h assetSchema
  constructor <;> simp [createDb, noFail, hfix]

/-- A database whose asset table has an incompatible legacy layout and
one stored row. -/
def legacyDb : Database :=
  [("asset", Table.mk [⟨"sku", "TEXT", true, false⟩] [[Value.textV "A-1"]])]

/-- C7 witness: the preservation theorem instantiated at a database whose
asset table has the incompatible one-column legacy layout. -/
theorem preexisting_asset_preserved_witness :
    lookupTable legacyDb "asset" =
      some (Table.mk [⟨"sku", "TEXT", true, false⟩] [[Value.textV "A-1"]]) ∧
    ((createDb w0 noFail (some legacyDb)).outcome = Outcome.ok ∧
     (createDb w0 noFail (some legacyDb)).fileState = some legacyDb) :=
  ⟨by decide,
   preexisting_asset_preserved w0 legacyDb
     (Table.mk [⟨"sku", "TEXT", true, false⟩] [[Value.textV "A-1"]]) (by decide)⟩

/-- C1: for every well-formed initial state (SQLite keeps table names
unique, so at most one table is named asset), a first failure-free run
succeeds and leaves exactly one table named asset; a second run against
the resulting file also succeeds, again leaves exactly one table named
asset, and returns the database file byte-for-byte unchanged, so every
row present after the first run is still present and retrievable. -/
theorem createDb_idempotent (w₁ w₂ : World) (fs₀ : Option Database)
    (hk : tablesNamed (fs₀.getD []) "asset" ≤ 1) :
    (createDb w₁ noFail fs₀).outcome = Outcome.ok ∧
    tablesNamed ((createDb w₁ noFail fs₀).fileState.getD []) "asset" = 1 ∧
    (createDb w₂ noFail (createDb w₁ noFail fs₀).fileState).outcome = Outcome.ok ∧
    tablesNamed
      ((createDb w₂ noFail (createDb w₁ noFail fs₀).fileState).fileState.getD [])
      "asset" = 1 ∧
    (createDb w₂ noFail (createDb w₁ noFail fs₀).fileState).fileState =
      (createDb w₁ noFail fs₀).fileState := by
  obtain ⟨t, ht⟩ := lookupTable_createTableIfNotExists_self (fs₀.getD []) "asset" assetSchema
  have hcount := tablesNamed_createTableIfNotExists (fs₀.getD []) "asset" assetSchema hk
  have hfix := createTableIfNotExists_of_found ht assetSchema
  refine ⟨by simp [createDb, noFail], ?_, ?_, ?_, ?_⟩ <;>
    simp [createDb, noFail, hfix, hcount]

/-- A populated database file used to instantiate the idempotence
theorem: its asset table holds one stored row. -/
def populatedFs : Option Database :=
  some [("asset", Table.mk assetSchema
    [[Value.intV 1, Value.textV "Laptop", Value.textV "A-100",
      Value.realV 999, Value.nullV, Value.nullV]])]

/-- C1 witness: the idempotence theorem instantiated at a database file
whose asset table already holds a row. -/
theorem createDb_idempotent_witness :
    tablesNamed (populatedFs.getD []) "asset" ≤ 1 ∧
    ((createDb w0 noFail populatedFs).outcome = Outcome.ok ∧
     tablesNamed ((createDb w0 noFail populatedFs).fileState.getD []) "asset" = 1 ∧
     (createDb w0 noFail (createDb w0 noFail populatedFs).fileState).outcome = Outcome.ok ∧
     tablesNamed
       ((createDb w0 noFail (createDb w0 noFail populatedFs).fileState).fileState.getD [])
       "asset" = 1 ∧
     (createDb w0 noFail (createDb w0 noFail populatedFs).fileState).fileState =
       (createDb w0 noFail populatedFs).fileState) :=
  ⟨by decide, createDb_idempotent w0 w0 populatedFs (by decide)⟩

/-- C9: on every run — failed or successful — the observable effect trace
is exactly one touch of the single file assets.db: no network I/O, no log
output, no interactive prompt; and every table other than asset is left
exactly as it was on disk, whatever name it has. -/
theorem createDb_effects_frame (w : World) (f : FailSpec) (fs : Option Database)
    (n : String) (hn : n ≠ "asset") :
    (createDb w f fs).effects = [Effect.fileTouch "assets.db"] ∧
    Effect.networkIO ∉ (createDb w f fs).effects ∧
    Effect.interactivePrompt ∉ (createDb w f fs).effects ∧
    (∀ s, Effect.logOutput s ∉ (createDb w f fs).effects) ∧
    lookupTable ((createDb w f fs).fileState.getD []) n = lookupTable (fs.getD []) n := by
  have hother := lookupTable_createTableIfNotExists_other (fs.getD []) "asset" n assetSchema hn
  rcases f with ⟨o, e, c⟩
  rcases o <;> rcases e <;> rcases c <;>
    exact ⟨by simp [createDb, scriptConnectPath],
           by simp [createDb, scriptConnectPath],
           by simp [createDb, scriptConnectPath],
           fun s => by simp [createDb, scriptConnectPath],
           by simp [createDb, hother]⟩

/-- C9 witness: the frame theorem instantiated at a failure-free run from
a fresh file and the unrelated table name customer. -/
theorem createDb_effects_frame_witness :
    ("customer" : String) ≠ "asset" ∧
    ((createDb w0 noFail none).effects = [Effect.fileTouch "assets.db"] ∧
     Effect.networkIO ∉ (createDb w0 noFail none).effects ∧
     Effect.interactivePrompt ∉ (createDb w0 noFail none).effects ∧
     (∀ s, Effect.logOutput s ∉ (createDb w0 noFail none).effects) ∧
     lookupTable ((createDb w0 noFail none).fileState.getD []) "customer" =
       lookupTable ((none : Option Database).getD []) "customer") :=
  ⟨by decide, createDb_effects_frame w0 noFail none "customer" (by decide)⟩

/-- C8 witness: the fresh-bootstrap theorem instantiated at the sample
invocation environment, its table-lookup consequence applied to the
created asset table. -/
theorem createDb_fresh_bootstrap_witness :
    (createDb w0 noFail none).outcome = Outcome.ok ∧
    (createDb w0 noFail none).fileState = some [("asset", Table.mk assetSchema [])] ∧
    ((createDb w0 noFail none).fileState.getD []).length = 1 ∧
    assetSchema.length = 6 ∧
    (∀ t, lookupTable (((createDb w0 noFail none).fileState).getD []) "asset" = some t →
      t.rows = [] ∧ t.schema = assetSchema) :=
  createDb_fresh_bootstrap w0
